import Mathlib

/-!
Verification of the OpenAI → AssemblyAI proxy (`app/main.py`).

The endpoint `create_transcription` is embedded as a pure function over the
request form data and a record of external collaborators (the helpers from
`app/utils.py` and the provider client from `app/assemblyai_client.py`, which
are outside the given sources and therefore enter as oracle parameters).
Python dictionaries of outbound parameters are modelled as association lists
of string keys and JSON-like values; `None` is the value `Val.vNull`.
-/

namespace OpenAIProxy

/-- JSON-like values appearing in the request parameter dictionaries. -/
inductive Val where
  | vNull
  | vBool (b : Bool)
  | vNum (n : Int)
  | vStr (s : String)
  | vList (l : List String)
  deriving DecidableEq

/-- First value bound to key `k` (Python dict lookup on our association lists). -/
def lookupKey (k : String) : List (String × Val) → Option Val
  | [] => none
  | p :: ps => if p.1 = k then some p.2 else lookupKey k ps

/-- Python `{**base, **cfg}` (main.py line 226): keys of `base` in order with
values overridden by `cfg` where present, then the keys of `cfg` absent from
`base`. -/
def pyMerge (base cfg : List (String × Val)) : List (String × Val) :=
  base.map (fun p =>
    match lookupKey p.1 cfg with
    | some v => (p.1, v)
    | none => p)
  ++ cfg.filter (fun p => (lookupKey p.1 base).isNone)

/-- main.py line 229: `{k: v for k, v in merged_params.items() if v is not None}`. -/
def dropNone (params : List (String × Val)) : List (String × Val) :=
  params.filter (fun p => !decide (p.2 = Val.vNull))

/-- Python `str.lower()`, modelled character-wise (the classifier only
compares against ASCII patterns). -/
def lowerStr (s : String) : String :=
  String.mk (s.data.map Char.toLower)

/-- `pat` occurs as a contiguous run of `l` (helper for Python `pat in s`). -/
def listContains (pat : List Char) : List Char → Bool
  | [] => pat.isEmpty
  | c :: cs => pat.isPrefixOf (c :: cs) || listContains pat cs

/-- `pat` occurs as a substring of `s` (Python `pat in s`). -/
def strContains (s pat : String) : Bool :=
  listContains pat.data s.data

/-- Modelled from the spec: `format_openai_error` lives in `app/utils.py`,
which is not among the sources; per §6 the outbound error envelope is
`\x7b error: \x7b message, type, code? \x7d \x7d`.  We record the triple it carries. -/
structure ErrorEnvelope where
  message : String
  errType : String
  code : Option String
  deriving DecidableEq

/-- Modelled from the spec: builds the §6 error envelope from its parts. -/
def format_openai_error (message errType : String) (code : Option String) :
    ErrorEnvelope :=
  ⟨message, errType, code⟩

/-- An `HTTPException(status_code=…, detail=format_openai_error(…))`. -/
structure ErrorBody where
  status : Nat
  detail : ErrorEnvelope
  deriving DecidableEq

/-- Status/type/code selection of main.py lines 260-280, a function of the
lowercased upstream message alone. -/
def classify_code (lm : String) : Nat × String × String :=
  if strContains lm "timeout" then
    (408, "timeout_error", "transcription_timeout")
  else if strContains lm "invalid" || strContains lm "bad request" then
    (400, "invalid_request_error", "invalid_audio")
  else if strContains lm "unauthorized" then
    (401, "authentication_error", "invalid_api_key")
  else if strContains lm "not found" then
    (404, "not_found_error", "audio_not_found")
  else
    (500, "api_error", "transcription_failed")

/-- The error translator of main.py lines 256-289: classify `error_msg` by
case-insensitive substring match and raise the corresponding
`HTTPException`, echoing the original message. -/
def classify_error (msg : String) : ErrorBody :=
  let t := classify_code (lowerStr msg)
  ⟨t.1, format_openai_error msg t.2.1 (some t.2.2)⟩

/-- An uploaded file: the `UploadFile` form field (filename, raw bytes as an
opaque string). -/
structure FileUpload where
  filename : Option String
  content : String
  deriving DecidableEq

/-- The inbound multipart form of `/v1/audio/transcriptions` plus the
`authorization` header (main.py lines 73-89).  `temperature` is modelled as a
scaled integer; the code only logs it. -/
structure TranscriptionForm where
  authHeader : Option String
  file : Option FileUpload
  model : String
  language : Option String
  prompt : Option String
  response_format : String
  temperature : Int
  audio_url : Option String
  deriving DecidableEq

/-- A completed provider transcription, opaque to the orchestrator (it is
produced by `client.transcribe` and consumed whole by the response
converter). -/
structure AssemblyAIResponse where
  text : String
  deriving DecidableEq

/-- The payload handed back to the caller on success, opaque to the
orchestrator (built by `convert_assemblyai_to_openai_response`). -/
structure OpenAIPayload where
  body : String
  deriving DecidableEq

/-- What the endpoint hands to the transport layer: a 200 payload or an
`HTTPException` body. -/
inductive Outcome where
  | success (payload : OpenAIPayload)
  | httpError (e : ErrorBody)
  deriving DecidableEq

/-- The external collaborators of `create_transcription`: the helpers imported
from `app/utils.py` and the provider client from `app/assemblyai_client.py`,
none of which are among the sources.  Each is an oracle parameter.
`clientInitFails key = true` models `AssemblyAIClient(api_key=key)` raising
`ValueError`; `uploadFile`/`transcribe` return `.error msg` when the client
raises with message `msg`. -/
structure Collaborators where
  mapLanguageCode : Option String → Option String
  mapModel : String → Option String
  parseWordBoost : Option String → Option (List String)
  parsePromptConfig : Option String → List (String × Val) × Option String
  validateAudioUrl : String → Bool
  clientInitFails : String → Bool
  uploadFile : String → Option String → Except String String
  transcribe : List (String × Val) → Except String AssemblyAIResponse
  convertResponse : AssemblyAIResponse → String → OpenAIPayload

/-- main.py lines 100-105: strip a `"Bearer "` prefix (`auth_header[7:]`),
else take the header verbatim.  Python string slicing is by characters, so we
work on the character list. -/
def extract_api_key (auth : String) : String :=
  if "Bearer ".data.isPrefixOf auth.data then String.mk (auth.data.drop 7) else auth

/-- The 401 body of main.py lines 90-98. -/
def missingAuthError : ErrorBody :=
  ⟨401, format_openai_error "No authorization header provided"
    "invalid_request_error" (some "missing_authorization")⟩

/-- The 401 body of main.py lines 107-115. -/
def invalidAuthError : ErrorBody :=
  ⟨401, format_openai_error "Invalid authorization header format"
    "invalid_request_error" (some "invalid_authorization")⟩

/-- The 400 body of main.py lines 168-177. -/
def missingAudioError : ErrorBody :=
  ⟨400, format_openai_error "Either 'file' or 'audio_url' parameter is required"
    "invalid_request_error" (some "missing_audio_input")⟩

/-- The 500 body of main.py lines 127-134 and 242-249. -/
def missingApiKeyError : ErrorBody :=
  ⟨500, format_openai_error "AssemblyAI API key not configured"
    "api_error" (some "missing_api_key")⟩

/-- The 400 body of main.py lines 201-208. -/
def invalidModelError (model : String) : ErrorBody :=
  ⟨400, format_openai_error
    ("Invalid model '" ++ model ++
      "'. Valid AssemblyAI speech models are: best, slam-1, universal")
    "invalid_request_error" (some "invalid_model")⟩

/-- `None`-valued optional string as a parameter value. -/
def optStrVal : Option String → Val
  | none => Val.vNull
  | some s => Val.vStr s

/-- `None`-valued optional list as a parameter value. -/
def optListVal : Option (List String) → Val
  | none => Val.vNull
  | some l => Val.vList l

/-- main.py lines 179-302: the tail of `create_transcription` once
`final_audio_url` is known.  `hadFile` records whether the file branch already
constructed the client (lines 237-249 re-construct it only when no file was
given). -/
def transcription_tail (C : Collaborators) (req : TranscriptionForm)
    (hadFile : Bool) (api_key final_audio_url : String) : Outcome :=
  let pr := C.parsePromptConfig req.prompt
  let config_dict := pr.1
  let cleaned_prompt := pr.2
  let speaker_diarization := (lookupKey "speaker_labels" config_dict).getD (Val.vBool false)
  let language_code := C.mapLanguageCode req.language
  let speech_model := C.mapModel req.model
  let word_boost := C.parseWordBoost cleaned_prompt
  if req.model ≠ "" ∧ speech_model = none then
    .httpError (invalidModelError req.model)
  else
    let base_params : List (String × Val) :=
      [("audio_url", Val.vStr final_audio_url),
       ("language_code", optStrVal language_code),
       ("speech_model", optStrVal speech_model),
       ("word_boost", optListVal word_boost),
       ("speaker_labels", speaker_diarization),
       ("punctuate", Val.vBool true),
       ("format_text", Val.vBool true)]
    let merged_params := dropNone (pyMerge base_params config_dict)
    if hadFile = false ∧ C.clientInitFails api_key then
      .httpError missingApiKeyError
    else
      match C.transcribe merged_params with
      | .error msg => .httpError (classify_error msg)
      | .ok resp => .success (C.convertResponse resp req.response_format)

/-- Embedding of the `/v1/audio/transcriptions` endpoint body
(`create_transcription`, main.py lines 72-314).  Python truthiness of the
header, the extracted key, `model` and `audio_url` is the `≠ ""` test. -/
def create_transcription (C : Collaborators) (req : TranscriptionForm) : Outcome :=
  match req.authHeader with
  | none => .httpError missingAuthError
  | some auth =>
    if auth = "" then
      .httpError missingAuthError
    else
      let api_key := extract_api_key auth
      if api_key = "" then
        .httpError invalidAuthError
      else
        match req.file with
        | some f =>
          if C.clientInitFails api_key then
            .httpError missingApiKeyError
          else
            match C.uploadFile f.content f.filename with
            | .error e =>
              .httpError ⟨400, format_openai_error ("Failed to upload file: " ++ e)
                "invalid_request_error" (some "file_upload_failed")⟩
            | .ok url => transcription_tail C req true api_key url
        | none =>
          match req.audio_url with
          | some u =>
            if u = "" then
              .httpError missingAudioError
            else if C.validateAudioUrl u then
              transcription_tail C req false api_key u
            else
              .httpError ⟨400, format_openai_error
                "Invalid audio URL format or unsupported audio type"
                "invalid_request_error" (some "invalid_audio_url")⟩
          | none => .httpError missingAudioError

/-- One run of the endpoint as the transport layer sees it: either the
endpoint body returned normally (`ok`), raised an `HTTPException` (`httpExc`),
or raised an arbitrary other exception carrying `msg` (`unexpected`). -/
inductive PipelineOutcome where
  | ok (payload : OpenAIPayload)
  | httpExc (e : ErrorBody)
  | unexpected (msg : String)
  deriving DecidableEq

/-- main.py lines 304-314: `except HTTPException: raise` re-raises formatted
errors unchanged; `except Exception` converts anything else to a generic 500
`api_error` (the message is logged, not echoed). -/
def outcome_boundary : PipelineOutcome → Outcome
  | .ok p => .success p
  | .httpExc e => .httpError e
  | .unexpected _ =>
    .httpError ⟨500, format_openai_error "Internal server error" "api_error" none⟩

/-- main.py lines 50-60: the app-level `@app.exception_handler(Exception)`,
returning the same generic 500 body for any exception text. -/
def global_exception_handler (_exc : String) : ErrorBody :=
  ⟨500, format_openai_error "Internal server error" "api_error" none⟩

/-! ### Modelled prompt configuration parser

`parse_prompt_for_config` is imported from `app/utils.py`, which is not among
the sources; the model below follows §4.1 of the spec.  All functions are
structurally recursive or fuel-bounded, so the parser is total by
construction — the model cannot raise. -/

/-- Modelled from the spec: whitespace skipping for the embedded JSON scanner. -/
def skipWsL : List Char → List Char
  | c :: cs => if c = ' ' ∨ c = '\t' ∨ c = '\n' ∨ c = '\r' then skipWsL cs else c :: cs
  | [] => []

/-- Modelled from the spec: the body of a JSON string literal up to the
closing quote (escapes are not modelled). -/
def takeStringBody : List Char → Option (List Char × List Char)
  | [] => none
  | c :: cs =>
    if c = '"' then some ([], cs)
    else
      match takeStringBody cs with
      | some (body, rest) => some (c :: body, rest)
      | none => none

/-- Modelled from the spec: a maximal run of decimal digits. -/
def takeDigits : List Char → List Char × List Char
  | [] => ([], [])
  | c :: cs =>
    if c.isDigit then
      let t := takeDigits cs
      (c :: t.1, t.2)
    else ([], c :: cs)

/-- Modelled from the spec: decimal digits to a natural number. -/
def digitsToNat (acc : Nat) : List Char → Nat
  | [] => acc
  | c :: cs => digitsToNat (acc * 10 + (c.toNat - 48)) cs

/-- Modelled from the spec: a JSON array of string literals (fuel-bounded),
positioned after the opening bracket. -/
def parseStrList : Nat → List Char → Option (List String × List Char)
  | 0, _ => none
  | fuel + 1, cs =>
    match skipWsL cs with
    | ']' :: rest => some ([], rest)
    | '"' :: rest =>
      match takeStringBody rest with
      | none => none
      | some (body, rest2) =>
        match skipWsL rest2 with
        | ',' :: rest3 =>
          match parseStrList fuel rest3 with
          | some (l, rest4) => some (String.mk body :: l, rest4)
          | none => none
        | ']' :: rest3 => some ([String.mk body], rest3)
        | _ => none
    | _ => none

/-- Modelled from the spec: a JSON value of the kinds a configuration mapping
carries — string, boolean, null, integer, or array of strings (§3 "values
typed per key — booleans, numbers, strings, lists"). -/
def parseValue (fuel : Nat) (cs : List Char) : Option (Val × List Char) :=
  match skipWsL cs with
  | '"' :: rest =>
    match takeStringBody rest with
    | some (body, rest2) => some (Val.vStr (String.mk body), rest2)
    | none => none
  | '[' :: rest =>
    match parseStrList fuel rest with
    | some (l, rest2) => some (Val.vList l, rest2)
    | none => none
  | 't' :: 'r' :: 'u' :: 'e' :: rest => some (Val.vBool true, rest)
  | 'f' :: 'a' :: 'l' :: 's' :: 'e' :: rest => some (Val.vBool false, rest)
  | 'n' :: 'u' :: 'l' :: 'l' :: rest => some (Val.vNull, rest)
  | '-' :: rest =>
    match takeDigits rest with
    | ([], _) => none
    | (ds, rest2) => some (Val.vNum (-(digitsToNat 0 ds : Int)), rest2)
  | other =>
    match takeDigits other with
    | ([], _) => none
    | (ds, rest2) => some (Val.vNum (digitsToNat 0 ds : Int), rest2)

/-- Modelled from the spec: the members of a JSON object (fuel-bounded),
positioned after the opening brace. -/
def parsePairs : Nat → List Char → Option (List (String × Val) × List Char)
  | 0, _ => none
  | fuel + 1, cs =>
    match skipWsL cs with
    | '}' :: rest => some ([], rest)
    | '"' :: rest =>
      match takeStringBody rest with
      | none => none
      | some (keyChars, rest2) =>
        match skipWsL rest2 with
        | ':' :: rest3 =>
          match parseValue fuel rest3 with
          | none => none
          | some (v, rest4) =>
            match skipWsL rest4 with
            | ',' :: rest5 =>
              match parsePairs fuel rest5 with
              | some (ps, rest6) => some ((String.mk keyChars, v) :: ps, rest6)
              | none => none
            | '}' :: rest5 => some ([(String.mk keyChars, v)], rest5)
            | _ => none
        | _ => none
    | _ => none

/-- Modelled from the spec: a syntactically valid flat JSON object starting at
the head of the input, with the remaining text. -/
def parseJsonObject : List Char → Option (List (String × Val) × List Char)
  | '{' :: rest => parsePairs (rest.length + 1) rest
  | _ => none

/-- Modelled from the spec: scan left to right for the first position at which
a syntactically valid JSON object starts; return its mapping, the text before
it (reversed accumulator) and the text after it.  Malformed candidates are
skipped, never an error. -/
def findJsonFrom (acc : List Char) : List Char → Option (List (String × Val) × List Char × List Char)
  | [] => none
  | c :: cs =>
    if c = '{' then
      match parseJsonObject (c :: cs) with
      | some (cfg, rest) => some (cfg, acc, rest)
      | none => findJsonFrom (c :: acc) cs
    else findJsonFrom (c :: acc) cs

/-- Modelled from the spec: the fixed legacy keyword patterns of §4.1 step 2;
the spec names one marker, enabling speaker-label separation. -/
def legacyPatterns : List (String × String × Val) :=
  [("enable speaker separation", "speaker_labels", Val.vBool true)]

/-- Modelled from the spec: remove the first occurrence of `pat`; `none` when
`pat` does not occur. -/
def stripFirstMatch (pat : List Char) : List Char → Option (List Char)
  | [] => none
  | c :: cs =>
    if pat.isPrefixOf (c :: cs) then some ((c :: cs).drop pat.length)
    else
      match stripFirstMatch pat cs with
      | some rest => some (c :: rest)
      | none => none

/-- Modelled from the spec: for each legacy pattern found, set its
configuration key and strip the matched substring (§4.1 step 2). -/
def scanLegacy : List (String × String × Val) → List Char → List (String × Val) × List Char
  | [], text => ([], text)
  | (pat, key, v) :: ps, text =>
    match stripFirstMatch pat.data text with
    | some stripped =>
      let r := scanLegacy ps stripped
      ((key, v) :: r.1, r.2)
    | none => scanLegacy ps text

/-- Modelled from the spec: `parse_prompt_for_config` (in `app/utils.py`,
absent from the sources).  §4.1: (1) the first syntactically valid embedded
JSON object becomes the configuration mapping and its text is removed from
the residual; (2) otherwise recognized legacy patterns set their keys and are
stripped; (3) otherwise the mapping is empty and the residual is the input
unchanged.  Malformed JSON falls through to step 2 rather than raising. -/
def parse_prompt_for_config : Option String → List (String × Val) × Option String
  | none => ([], none)
  | some p =>
    match findJsonFrom [] p.data with
    | some (cfg, textBefore, textAfter) =>
      (cfg, some (String.mk (textBefore.reverse ++ textAfter)))
    | none =>
      let r := scanLegacy legacyPatterns p.data
      (r.1, some (String.mk r.2))

/-! ### Lemmas on dictionary lookup, merge and null-dropping -/

theorem lookupKey_append (k : String) (l₁ l₂ : List (String × Val)) :
    lookupKey k (l₁ ++ l₂) =
      match lookupKey k l₁ with
      | some v => some v
      | none => lookupKey k l₂ := by
  induction l₁ with
  | nil => simp [lookupKey]
  | cons p ps ih =>
    by_cases hp : p.1 = k
    · simp [lookupKey, hp]
    · simp [lookupKey, hp, ih]

theorem lookupKey_map_override (cfg base : List (String × Val)) (k : String) :
    lookupKey k (base.map (fun p =>
      match lookupKey p.1 cfg with
      | some v => (p.1, v)
      | none => p)) =
      match lookupKey k base with
      | none => none
      | some w =>
        match lookupKey k cfg with
        | some v => some v
        | none => some w := by
  induction base with
  | nil => simp [lookupKey]
  | cons p ps ih =>
    by_cases hp : p.1 = k
    · subst hp
      cases hc : lookupKey p.1 cfg <;> simp [lookupKey, hc]
    · cases hc : lookupKey p.1 cfg <;> simp [lookupKey, hp, hc, ih]

theorem lookupKey_filter_isNone (base cfg : List (String × Val)) (k : String) :
    lookupKey k (cfg.filter (fun p => (lookupKey p.1 base).isNone)) =
      if (lookupKey k base).isNone then lookupKey k cfg else none := by
  induction cfg with
  | nil => simp [lookupKey]
  | cons p ps ih =>
    by_cases hp : p.1 = k
    · subst hp
      cases hb : (lookupKey p.1 base).isNone <;>
        simp [List.filter_cons, lookupKey, hb, ih]
    · cases hb : (lookupKey p.1 base).isNone <;>
        simp [List.filter_cons, lookupKey, hp, hb, ih]

theorem lookupKey_pyMerge (base cfg : List (String × Val)) (k : String) :
    lookupKey k (pyMerge base cfg) =
      match lookupKey k cfg with
      | some v => some v
      | none => lookupKey k base := by
  unfold pyMerge
  rw [lookupKey_append, lookupKey_map_override, lookupKey_filter_isNone]
  cases hb : lookupKey k base <;> cases hc : lookupKey k cfg <;> simp [hb, hc]

theorem lookupKey_eq_none_of_notin (k : String) (l : List (String × Val))
    (h : k ∉ l.map Prod.fst) : lookupKey k l = none := by
  induction l with
  | nil => simp [lookupKey]
  | cons p ps ih =>
    simp only [List.map_cons, List.mem_cons, not_or] at h
    have hp : ¬p.1 = k := fun he => h.1 he.symm
    simp [lookupKey, hp, ih h.2]

theorem lookupKey_none_filter (l : List (String × Val)) (Q : String × Val → Bool)
    (k : String) (h : lookupKey k l = none) : lookupKey k (l.filter Q) = none := by
  induction l with
  | nil => simp [lookupKey]
  | cons p ps ih =>
    by_cases hp : p.1 = k
    · simp [lookupKey, hp] at h
    · simp only [lookupKey, hp, if_neg hp] at h
      cases hQ : Q p <;> simp [List.filter_cons, lookupKey, hp, hQ, ih h]

theorem lookupKey_dropNone (params : List (String × Val)) (k : String)
    (hnd : (params.map Prod.fst).Nodup) :
    lookupKey k (dropNone params) =
      match lookupKey k params with
      | some v => if v = Val.vNull then none else some v
      | none => none := by
  induction params with
  | nil => simp [dropNone, lookupKey]
  | cons p ps ih =>
    have hnotin : p.1 ∉ ps.map Prod.fst := (List.nodup_cons.mp hnd).1
    have hnd' : (ps.map Prod.fst).Nodup := (List.nodup_cons.mp hnd).2
    have ih' := ih hnd'
    simp only [dropNone] at ih' ⊢
    by_cases hp : p.1 = k
    · subst hp
      by_cases hv : p.2 = Val.vNull
      · have hnone : lookupKey p.1 ps = none := lookupKey_eq_none_of_notin _ _ hnotin
        have hfil := lookupKey_none_filter ps (fun q => !decide (q.2 = Val.vNull)) p.1 hnone
        simp [List.filter_cons, hv, lookupKey, hfil]
      · simp [List.filter_cons, hv, lookupKey]
    · by_cases hv : p.2 = Val.vNull <;>
        simp [List.filter_cons, hv, lookupKey, hp, ih']

/-! ### Concrete fixtures for evaluating the endpoint -/

/-- A benign set of collaborators: every model maps except `whisper-1`'s
siblings, uploads succeed with a fixed URL, transcription succeeds with text
`"hello"`, and the response converter passes the text through. -/
def benignOracles : Collaborators :=
  ⟨fun _ => none,
   fun m => if m = "whisper-1" then some "best" else none,
   fun _ => none,
   fun p => ([], p),
   fun _ => true,
   fun _ => false,
   fun _ _ => .ok "https://cdn.example/upload.mp3",
   fun _ => .ok ⟨"hello"⟩,
   fun r _ => ⟨r.text⟩⟩

/-- Like `benignOracles`, but constructing the provider client raises
`ValueError` for every credential. -/
def failingClientOracles : Collaborators :=
  ⟨fun _ => none,
   fun m => if m = "whisper-1" then some "best" else none,
   fun _ => none,
   fun p => ([], p),
   fun _ => true,
   fun _ => true,
   fun _ _ => .ok "https://cdn.example/upload.mp3",
   fun _ => .ok ⟨"hello"⟩,
   fun r _ => ⟨r.text⟩⟩

/-- A request carrying both an uploaded file and an audio URL. -/
def reqBothSources : TranscriptionForm :=
  ⟨some "Bearer sk-123", some ⟨some "a.mp3", "AUDIOBYTES"⟩, "whisper-1",
    none, none, "json", 0, some "https://x.com/a.mp3"⟩

/-- A request with neither an uploaded file nor an audio URL. -/
def reqNoSource : TranscriptionForm :=
  ⟨some "Bearer sk-123", none, "whisper-1", none, none, "json", 0, none⟩

/-- A request without an `authorization` header. -/
def reqNoAuthHeader : TranscriptionForm :=
  ⟨none, none, "whisper-1", none, none, "json", 0, some "https://x.com/a.mp3"⟩

/-- A request whose `authorization` header is the bare `"Bearer "` marker. -/
def reqEmptyBearer : TranscriptionForm :=
  ⟨some "Bearer ", none, "whisper-1", none, none, "json", 0, some "https://x.com/a.mp3"⟩

/-- A request naming a model outside the supported enumeration. -/
def reqInvalidModel : TranscriptionForm :=
  ⟨some "Bearer sk-123", none, "invalid-model-xyz", none, none, "json", 0,
    some "https://x.com/a.mp3"⟩

/-- A request delivering its audio as an uploaded file. -/
def reqFileUpload : TranscriptionForm :=
  ⟨some "Bearer sk-123", some ⟨some "a.mp3", "AUDIOBYTES"⟩, "whisper-1",
    none, none, "json", 0, none⟩

/-! ### Claim theorems -/

/-- Claim C1: the error translator classifies an upstream failure message into
exactly one category by case-insensitive substring match in the priority order
timeout, invalid/bad request, unauthorized, not found, with anything unmatched
a generic api error; the statuses are 408, 400, 401, 404 and 500 respectively,
the classification depends only on the lowercased message, and a message
containing both "timeout" and "unauthorized" classifies as
`timeout_error`/408. -/
theorem classify_error_priority :
    (∀ m, strContains (lowerStr m) "timeout" = true →
      classify_error m = ⟨408, ⟨m, "timeout_error", some "transcription_timeout"⟩⟩) ∧
    (∀ m, strContains (lowerStr m) "timeout" = false →
      (strContains (lowerStr m) "invalid" || strContains (lowerStr m) "bad request") = true →
      classify_error m = ⟨400, ⟨m, "invalid_request_error", some "invalid_audio"⟩⟩) ∧
    (∀ m, strContains (lowerStr m) "timeout" = false →
      (strContains (lowerStr m) "invalid" || strContains (lowerStr m) "bad request") = false →
      strContains (lowerStr m) "unauthorized" = true →
      classify_error m = ⟨401, ⟨m, "authentication_error", some "invalid_api_key"⟩⟩) ∧
    (∀ m, strContains (lowerStr m) "timeout" = false →
      (strContains (lowerStr m) "invalid" || strContains (lowerStr m) "bad request") = false →
      strContains (lowerStr m) "unauthorized" = false →
      strContains (lowerStr m) "not found" = true →
      classify_error m = ⟨404, ⟨m, "not_found_error", some "audio_not_found"⟩⟩) ∧
    (∀ m, strContains (lowerStr m) "timeout" = false →
      (strContains (lowerStr m) "invalid" || strContains (lowerStr m) "bad request") = false →
      strContains (lowerStr m) "unauthorized" = false →
      strContains (lowerStr m) "not found" = false →
      classify_error m = ⟨500, ⟨m, "api_error", some "transcription_failed"⟩⟩) ∧
    (∀ m₁ m₂, lowerStr m₁ = lowerStr m₂ →
      (classify_error m₁).status = (classify_error m₂).status ∧
      (classify_error m₁).detail.errType = (classify_error m₂).detail.errType ∧
      (classify_error m₁).detail.code = (classify_error m₂).detail.code) ∧
    classify_error "Timeout while unauthorized" =
      ⟨408, ⟨"Timeout while unauthorized", "timeout_error", some "transcription_timeout"⟩⟩ := by
  refine ⟨?_, ?_, ?_, ?_, ?_, ?_, by decide⟩
  · intro m h1
    simp [classify_error, classify_code, format_openai_error, h1]
  · intro m h1 h2
    simp [classify_error, classify_code, format_openai_error, h1, h2]
  · intro m h1 h2 h3
    simp only [Bool.or_eq_false_iff] at h2
    simp [classify_error, classify_code, format_openai_error, h1, h2.1, h2.2, h3]
  · intro m h1 h2 h3 h4
    simp only [Bool.or_eq_false_iff] at h2
    simp [classify_error, classify_code, format_openai_error, h1, h2.1, h2.2, h3, h4]
  · intro m h1 h2 h3 h4
    simp only [Bool.or_eq_false_iff] at h2
    simp [classify_error, classify_code, format_openai_error, h1, h2.1, h2.2, h3, h4]
  · intro m₁ m₂ h
    simp [classify_error, format_openai_error, h]

/-- Witness for `classify_error_priority` at the message of end-to-end
scenario 5. -/
theorem classify_error_priority_witness :
    classify_error "Request timeout" =
      ⟨408, ⟨"Request timeout", "timeout_error", some "transcription_timeout"⟩⟩ :=
  classify_error_priority.1 "Request timeout" (by decide)

/-- Claim C2 counterexample: a request with both an uploaded file and an audio
URL is not rejected — the endpoint takes the file branch, invokes the provider
(upload, then transcription) and succeeds. -/
theorem both_sources_take_file_branch :
    create_transcription benignOracles reqBothSources = .success ⟨"hello"⟩ ∧
    create_transcription benignOracles reqBothSources ≠ .httpError missingAudioError := by
  decide

/-- Claim C2 (amended): a request with neither audio source is rejected with
400 `missing_audio_input` before any provider call (the outcome is the same
for every collaborator record, so the provider is never invoked); when both
sources are present the uploaded file takes precedence and the audio URL is
ignored. -/
theorem audio_source_validation_amended :
    (∀ (C : Collaborators) (req : TranscriptionForm) (a : String),
      req.authHeader = some a → a ≠ "" → extract_api_key a ≠ "" →
      req.file = none → (req.audio_url = none ∨ req.audio_url = some "") →
      create_transcription C req = .httpError missingAudioError) ∧
    (∀ (C : Collaborators) (req : TranscriptionForm) (f : FileUpload) (u : Option String),
      req.file = some f →
      create_transcription C { req with audio_url := u } = create_transcription C req) := by
  constructor
  · intro C req a h1 h2 h3 h4 h5
    obtain ⟨au, fi, mo, la, pr, rf, te, ur⟩ := req
    simp only at h1 h4
    subst h1; subst h4
    rcases h5 with h5 | h5 <;> simp only at h5 <;> subst h5 <;>
      simp [create_transcription, h2, h3]
  · intro C req f u hf
    obtain ⟨au, fi, mo, la, pr, rf, te, ur⟩ := req
    simp only at hf
    subst hf
    rfl

/-- Witness for `audio_source_validation_amended`: the no-source request is
rejected with 400 `missing_audio_input`. -/
theorem audio_source_validation_amended_witness :
    create_transcription benignOracles reqNoSource = .httpError missingAudioError :=
  audio_source_validation_amended.1 benignOracles reqNoSource "Bearer sk-123"
    rfl (by decide) (by decide) rfl (Or.inl rfl)

/-- Claim C3 counterexample: the 401 `missing_authorization` response carries
error type `invalid_request_error` (main.py line 95), not an
authentication-error category. -/
theorem missing_auth_error_type :
    create_transcription benignOracles reqNoAuthHeader = .httpError missingAuthError ∧
    missingAuthError.detail.errType = "invalid_request_error" ∧
    missingAuthError.detail.errType ≠ "authentication_error" := by
  decide

/-- Claim C3 (amended): a request without an `authorization` header yields 401
with code `missing_authorization`, and a credential empty after stripping the
`"Bearer "` marker yields 401 with code `invalid_authorization`; both carry
error type `invalid_request_error`. -/
theorem auth_validation_amended :
    (∀ (C : Collaborators) (req : TranscriptionForm),
      req.authHeader = none →
      create_transcription C req = .httpError missingAuthError) ∧
    (∀ (C : Collaborators) (req : TranscriptionForm) (a : String),
      req.authHeader = some a → "Bearer ".data.isPrefixOf a.data = true →
      a.data.drop 7 = [] →
      create_transcription C req = .httpError invalidAuthError) := by
  constructor
  · intro C req h1
    obtain ⟨au, fi, mo, la, pr, rf, te, ur⟩ := req
    simp only at h1
    subst h1
    rfl
  · intro C req a h1 h2 h3
    obtain ⟨au, fi, mo, la, pr, rf, te, ur⟩ := req
    simp only at h1
    subst h1
    have ha : a ≠ "" := by
      intro he
      subst he
      exact absurd h2 (by decide)
    have hk : extract_api_key a = "" := by
      simp only [extract_api_key, h2, if_true]
      rw [h3]
    simp [create_transcription, ha, hk]

/-- Witness for `auth_validation_amended`: the bare `"Bearer "` header is
rejected with 401 `invalid_authorization`. -/
theorem auth_validation_amended_witness :
    create_transcription benignOracles reqEmptyBearer = .httpError invalidAuthError :=
  auth_validation_amended.2 benignOracles reqEmptyBearer "Bearer "
    rfl (by decide) (by decide)

/-- Claim C4: in the merged outbound request, every key present in the parsed
prompt configuration takes its value from the configuration (configuration
wins on key collision); in particular the default `speaker_labels = false` is
overridden by a parsed `speaker_labels = true`. -/
theorem config_overrides_defaults :
    (∀ (base cfg : List (String × Val)) (k : String) (v : Val),
      lookupKey k cfg = some v → lookupKey k (pyMerge base cfg) = some v) ∧
    lookupKey "speaker_labels"
      (pyMerge
        [("audio_url", Val.vStr "https://x.com/a.mp3"),
         ("language_code", Val.vNull),
         ("speech_model", Val.vStr "best"),
         ("word_boost", Val.vNull),
         ("speaker_labels", Val.vBool false),
         ("punctuate", Val.vBool true),
         ("format_text", Val.vBool true)]
        [("speaker_labels", Val.vBool true)]) = some (Val.vBool true) := by
  constructor
  · intro base cfg k v h
    rw [lookupKey_pyMerge, h]
  · decide

/-- Witness for `config_overrides_defaults` at a one-key collision. -/
theorem config_overrides_defaults_witness :
    lookupKey "speaker_labels"
      (pyMerge [("speaker_labels", Val.vBool false)] [("speaker_labels", Val.vBool true)]) =
      some (Val.vBool true) :=
  config_overrides_defaults.1 [("speaker_labels", Val.vBool false)]
    [("speaker_labels", Val.vBool true)] "speaker_labels" (Val.vBool true) (by decide)

/-- Claim C5: null-dropping removes exactly the null-valued keys — a key bound
to null is absent from the transmitted request, a key bound to a non-null
value keeps that value, and no transmitted entry is null. -/
theorem null_values_dropped :
    (∀ (params : List (String × Val)) (k : String),
      (params.map Prod.fst).Nodup →
      (lookupKey k params = some Val.vNull → lookupKey k (dropNone params) = none) ∧
      (∀ v : Val, lookupKey k params = some v → v ≠ Val.vNull →
        lookupKey k (dropNone params) = some v)) ∧
    (∀ (params : List (String × Val)) (k : String) (v : Val),
      (k, v) ∈ dropNone params → v ≠ Val.vNull) := by
  constructor
  · intro params k hnd
    have h := lookupKey_dropNone params k hnd
    constructor
    · intro h0
      rw [h, h0]
      simp
    · intro v hv hne
      rw [h, hv]
      simp [hne]
  · intro params k v hm
    simp only [dropNone, List.mem_filter] at hm
    simpa using hm.2

/-- Witness for `null_values_dropped`: a null `language_code` is omitted. -/
theorem null_values_dropped_witness :
    lookupKey "language_code"
      (dropNone [("language_code", Val.vNull), ("speaker_labels", Val.vBool true)]) = none :=
  ((null_values_dropped.1
    [("language_code", Val.vNull), ("speaker_labels", Val.vBool true)]
    "language_code" (by decide)).1 (by decide))

/-- Claim C6: a request supplying a non-empty model identifier for which the
model mapping yields no target speech model is rejected with 400
`invalid_model` on both the audio-URL path and the file path; the outcome is
the same for every collaborator record, so the provider transcription call is
never made. -/
theorem invalid_model_rejected :
    (∀ (C : Collaborators) (req : TranscriptionForm) (a u : String),
      req.authHeader = some a → a ≠ "" → extract_api_key a ≠ "" →
      req.file = none → req.audio_url = some u → u ≠ "" →
      C.validateAudioUrl u = true →
      req.model ≠ "" → C.mapModel req.model = none →
      create_transcription C req = .httpError (invalidModelError req.model)) ∧
    (∀ (C : Collaborators) (req : TranscriptionForm) (a : String) (f : FileUpload)
      (url : String),
      req.authHeader = some a → a ≠ "" → extract_api_key a ≠ "" →
      req.file = some f → C.clientInitFails (extract_api_key a) = false →
      C.uploadFile f.content f.filename = .ok url →
      req.model ≠ "" → C.mapModel req.model = none →
      create_transcription C req = .httpError (invalidModelError req.model)) := by
  constructor
  · intro C req a u h1 h2 h3 h4 h5 h6 h7 h8 h9
    obtain ⟨au, fi, mo, la, pr, rf, te, ur⟩ := req
    simp only at h1 h4 h5 h8 h9 ⊢
    subst h1; subst h4; subst h5
    simp [create_transcription, transcription_tail, h2, h3, h6, h7, h8, h9]
  · intro C req a f url h1 h2 h3 h4 h5 h6 h7 h8
    obtain ⟨au, fi, mo, la, pr, rf, te, ur⟩ := req
    simp only at h1 h4 h7 h8 ⊢
    subst h1; subst h4
    simp [create_transcription, transcription_tail, h2, h3, h5, h6, h7, h8]

/-- Witness for `invalid_model_rejected` at end-to-end scenario 4's model. -/
theorem invalid_model_rejected_witness :
    create_transcription benignOracles reqInvalidModel =
      .httpError (invalidModelError "invalid-model-xyz") :=
  invalid_model_rejected.1 benignOracles reqInvalidModel "Bearer sk-123"
    "https://x.com/a.mp3" rfl (by decide) (by decide) rfl rfl (by decide)
    rfl (by decide) (by decide)

/-- Claim C7: the modelled prompt configuration parser is total by
construction (it cannot raise), and on any prompt containing no syntactically
valid embedded JSON object and no recognized legacy pattern it returns the
empty mapping together with the input unchanged. -/
theorem prompt_parse_identity :
    ∀ p : String, findJsonFrom [] p.data = none →
      stripFirstMatch "enable speaker separation".data p.data = none →
      parse_prompt_for_config (some p) = ([], some p) := by
  intro p h1 h2
  simp [parse_prompt_for_config, h1, scanLegacy, legacyPatterns, h2]

/-- Witness for `prompt_parse_identity` at a malformed-JSON prompt. -/
theorem prompt_parse_identity_witness :
    parse_prompt_for_config (some "\x7bnot json !") = ([], some "\x7bnot json !") :=
  prompt_parse_identity "\x7bnot json !" (by decide) (by decide)

/-- Claim C8: every failure that is not already a formatted HTTP error is
converted by the outer boundary into a 500 `api_error` with the fixed generic
message, independent of the internal exception text (so nothing internal is
echoed), the app-level handler produces the same body, and the boundary only
ever emits formatted outcomes. -/
theorem unexpected_failures_masked :
    (∀ msg, outcome_boundary (.unexpected msg) =
      .httpError ⟨500, format_openai_error "Internal server error" "api_error" none⟩) ∧
    (∀ msg₁ msg₂, outcome_boundary (.unexpected msg₁) = outcome_boundary (.unexpected msg₂)) ∧
    (∀ exc, global_exception_handler exc =
      ⟨500, format_openai_error "Internal server error" "api_error" none⟩) ∧
    (∀ r, (∃ p, outcome_boundary r = .success p) ∨
      (∃ e, outcome_boundary r = .httpError e)) := by
  refine ⟨fun _ => rfl, fun _ _ => rfl, fun _ => rfl, ?_⟩
  intro r
  cases r with
  | ok p => exact .inl ⟨p, rfl⟩
  | httpExc e => exact .inr ⟨e, rfl⟩
  | unexpected msg => exact .inr ⟨_, rfl⟩

/-- Claim C9: the temperature parameter is semantically ignored — two requests
identical except for their temperature values produce the same outcome for
every collaborator record, hence the same merged outbound request and
response. -/
theorem temperature_semantically_ignored :
    ∀ (C : Collaborators) (req : TranscriptionForm) (t₁ t₂ : Int),
      create_transcription C { req with temperature := t₁ } =
      create_transcription C { req with temperature := t₂ } := by
  intro C req t₁ t₂
  cases req
  rfl

/-- Claim C10: when constructing the provider client from the extracted
credential raises `ValueError`, the endpoint returns 500 `api_error` with code
`missing_api_key`, on the file path and on the audio-URL path alike; the
outcome is the same for every upload/transcribe oracle, so neither call is
attempted. -/
theorem client_init_value_error :
    (∀ (C : Collaborators) (req : TranscriptionForm) (a : String) (f : FileUpload),
      req.authHeader = some a → a ≠ "" → extract_api_key a ≠ "" →
      req.file = some f → C.clientInitFails (extract_api_key a) = true →
      create_transcription C req = .httpError missingApiKeyError) ∧
    (∀ (C : Collaborators) (req : TranscriptionForm) (a u : String),
      req.authHeader = some a → a ≠ "" → extract_api_key a ≠ "" →
      req.file = none → req.audio_url = some u → u ≠ "" →
      C.validateAudioUrl u = true →
      ¬(req.model ≠ "" ∧ C.mapModel req.model = none) →
      C.clientInitFails (extract_api_key a) = true →
      create_transcription C req = .httpError missingApiKeyError) := by
  constructor
  · intro C req a f h1 h2 h3 h4 h5
    obtain ⟨au, fi, mo, la, pr, rf, te, ur⟩ := req
    simp only at h1 h4
    subst h1; subst h4
    simp [create_transcription, h2, h3, h5]
  · intro C req a u h1 h2 h3 h4 h5 h6 h7 h8 h9
    obtain ⟨au, fi, mo, la, pr, rf, te, ur⟩ := req
    simp only at h1 h4 h5 h8 ⊢
    subst h1; subst h4; subst h5
    simp [create_transcription, transcription_tail, h2, h3, h6, h7, h8, h9]

/-- Witness for `client_init_value_error` on the file path. -/
theorem client_init_value_error_witness :
    create_transcription failingClientOracles reqFileUpload =
      .httpError missingApiKeyError :=
  client_init_value_error.1 failingClientOracles reqFileUpload "Bearer sk-123"
    ⟨some "a.mp3", "AUDIOBYTES"⟩ rfl (by decide) (by decide) rfl rfl

/-- Sanity check of the modelled parser on its positive path: an embedded
JSON object becomes the configuration mapping and its text leaves the
residual (spec §8, first property). -/
theorem prompt_parse_extracts_json :
    parse_prompt_for_config (some "use \x7b\"speaker_labels\": true\x7d here") =
      ([("speaker_labels", Val.vBool true)], some "use  here") := by
  decide

end OpenAIProxy
